import Mathlib

/-!
Shallow embedding of the resilient harvesting engine of `lca/data_collection`:
the request executor and its 403 rate-limit handler
(`github_collection.make_github_http_request`, `handle_github_rate_limit`,
`handle_github_ban`), the tenacity retry policy wrapping the executor,
the cursor walker (`repo_data_provider.RepoObjectsProvider.process_repo`),
the concurrent scheduler (`collect/repo_processor.RepoProcessor`), and the
item sink (`repo_info_provider.RepoInfoProvider.dump_data`).

Modelling conventions:
  * Python dict-shaped JSON is a small inductive `Json`; `Json.get` models
    `d.get(k)` / `k in d` on object bodies.  Non-object bodies are modelled
    as lacking every key (the API under consideration always returns JSON
    objects, so this corner is never exercised by the claims).
  * A Python exception that is RAISED (as opposed to the executor's style of
    RETURNING an exception object as a value) is an `Except.error` of `PyErr`.
  * Sleeps are not performed; each function returns the duration it passes to
    `asyncio.sleep` (an `Int`, since the primary-quota computation can go
    negative) alongside its result.
-/

namespace LCA

/-- Minimal JSON values, enough to model the response bodies the code
inspects (`response.json()`). -/
inductive Json where
  | str (s : String)
  | num (n : Int)
  | bool (b : Bool)
  | null
  | arr (xs : List Json)
  | obj (fields : List (String × Json))

/-- Python `d.get(k)` on a JSON object: first binding of the key, if any.
Non-object values are modelled as having no keys. -/
def Json.get (j : Json) (k : String) : Option Json :=
  match j with
  | .obj fields => (fields.find? (fun kv => kv.1 == k)).map (fun kv => kv.2)
  | _ => none

/-- Raised (uncaught-by-value) Python exceptions that the modelled code can
produce: `KeyError` from `response.headers[...]`, `AttributeError` from
`startswith` on a non-string, `ValueError` from `int(...)`, and
`aiohttp.ClientError` from the transport. -/
inductive PyErr where
  | keyError (key : String)
  | attributeError
  | valueError
  | clientError (msg : String)
deriving DecidableEq

/-- An HTTP response as the executor observes it: status code, the parsed
JSON body, the `next` link of `response.links` (already resolved to its
`url`, if present), the headers, and the request url (used in log/error
messages). -/
structure HttpResponse where
  status : Nat
  body : Json
  links_next : Option String
  headers : List (String × String)
  url : String

/-- Lookup `response.headers[k]`: raises `KeyError` when the header is
absent (Python `__getitem__`). -/
def headersItem (headers : List (String × String)) (k : String) :
    Except PyErr String :=
  match (headers.find? (fun kv => kv.1 == k)).map (fun kv => kv.2) with
  | some v => .ok v
  | none => .error (.keyError k)

/-- Decimal digit run, most significant first, with accumulator; `none` on
a non-digit character. -/
def parseDigits : List Char → Nat → Option Nat
  | [], acc => some acc
  | c :: rest, acc =>
    if c.isDigit then parseDigits rest (acc * 10 + (c.toNat - 48))
    else none

/-- Parse a non-empty all-digit character run. -/
def parseNat (cs : List Char) : Option Nat :=
  match cs with
  | [] => none
  | _ => parseDigits cs 0

/-- Python `int(s)` on the header strings the code parses: an optional
sign followed by a non-empty digit run, else `ValueError`.  (Python also
strips whitespace and accepts underscores; those corners are never
exercised here.) -/
def pyInt (s : String) : Except PyErr Int :=
  match s.data with
  | '-' :: rest =>
    match parseNat rest with
    | some n => .ok (-(n : Int))
    | none => .error .valueError
  | cs =>
    match parseNat cs with
    | some n => .ok (n : Int)
    | none => .error .valueError

/-- Python `s.startswith(p)`: `p`'s characters are a prefix of `s`'s.
(Equivalent to Lean's `String.startsWith`, but defined on the character
list so that the kernel can evaluate it on concrete strings.) -/
def pyStartswith (s p : String) : Bool :=
  p.data.isPrefixOf s.data

/-- Fixed rendering of an `aiohttp.ClientResponse` inside f-strings such as
`f"... \x7bresponse\x7d"`; the exact Python repr is immaterial to every
claim, only that the resulting error is retryable. -/
def reprResponse (resp : HttpResponse) : String :=
  "<ClientResponse " ++ resp.url ++ ">"

/-- The two exception classes the code returns as values:
`GithubApiError` (retryable) and `NotRetryableGithubApiError`. -/
inductive GithubError where
  | api (msg : String)
  | notRetryable (msg : String)
deriving DecidableEq

/-- `GithubApiResponseOrError = Union[GithubApiResponse, Exception]`:
either a `GithubApiResponse(data, headers)` — whose only used header is the
optional `next` url — or an exception VALUE. -/
inductive GithubApiResponseOrError where
  | response (data : Json) (next : Option String)
  | error (e : GithubError)

/-- GITHUB_API_TRIES_LIMIT constant. -/
def GITHUB_API_TRIES_LIMIT : Nat := 10

/-- OTHER_ERRORS_SLEEP_TIME constant (the `wait_fixed` delay). -/
def OTHER_ERRORS_SLEEP_TIME : Nat := 10

/-- TIME_DIVERGENCE_CONST constant. -/
def TIME_DIVERGENCE_CONST : Int := 300

/-- RETRY_AFTER header name. -/
def RETRY_AFTER : String := "Retry-After"

/-- X_RATELIMIT_RESET header name. -/
def X_RATELIMIT_RESET : String := "X-RateLimit-Reset"

/-- `handle_github_rate_limit(response)`, given the current wall-clock time
`now` (`int(time.time())`).  Returns the `GithubApiError` value together
with the duration passed to `asyncio.sleep` (0 where the code does not
sleep); raises `KeyError` when the branch taken indexes a missing header,
`ValueError` when `int()` fails, and `AttributeError` when the body's
`message` is not a string (Python `message.startswith`). -/
def handle_github_rate_limit (now : Int) (resp : HttpResponse) :
    Except PyErr (GithubError × Int) :=
  match resp.body.get "message" with
  | some (.str message) =>
    if pyStartswith message "You have exceeded a secondary rate limit." then
      match headersItem resp.headers RETRY_AFTER with
      | .error e => .error e
      | .ok h =>
        match pyInt h with
        | .error e => .error e
        | .ok sleep_time =>
          .ok (.api ("Secondary Github API rate limit was exceeded. " ++
                resp.url ++ " sleep for " ++ toString sleep_time), sleep_time)
    else if pyStartswith message "API rate limit exceeded" then
      match headersItem resp.headers X_RATELIMIT_RESET with
      | .error e => .error e
      | .ok h =>
        match pyInt h with
        | .error e => .error e
        | .ok reset_time =>
          let sleep_time := reset_time - now + TIME_DIVERGENCE_CONST
          .ok (.api ("Github API rate limit exceeded. " ++ resp.url ++
                " sleep for " ++ toString sleep_time), sleep_time)
    else
      .ok (.api ("Not a rate limiting error. " ++ reprResponse resp), 0)
  | some _ => .error .attributeError
  | none => .ok (.api ("No message in response. " ++ reprResponse resp), 0)

/-- `handle_github_ban(response)`: sleep 600 and return a retryable error. -/
def handle_github_ban (resp : HttpResponse) : GithubError × Int :=
  (.api ("Github API returned 504 error. " ++ resp.url ++ " sleep for 600"),
   600)

/-- The message extraction of the 404/422/409/451 branch:
`response_json.get("message", f'No "message" key in response. ...')`. -/
def notRetryableMessage (resp : HttpResponse) : String :=
  match resp.body.get "message" with
  | some (.str m) => m
  | some _ => "<non-string message value>"
  | none => "No \"message\" key in response. HTTP code " ++
      toString resp.status ++ "."

/-- Body of the `try:` block of `make_github_http_request` for one attempt,
before the `except aiohttp.ClientError` clause: `conn` is the outcome of
`http_session.get(url)` (either a response or a raised exception), `now`
the current time handed to the 403 handler.  Returns the classified
outcome together with the total duration slept during the attempt. -/
def requestTryBody (conn : Except PyErr HttpResponse) (now : Int) :
    Except PyErr (GithubApiResponseOrError × Int) :=
  match conn with
  | .error e => .error e
  | .ok resp =>
    if resp.status = 200 then
      .ok (.response resp.body resp.links_next, 0)
    else if resp.status = 403 then
      match handle_github_rate_limit now resp with
      | .error e => .error e
      | .ok (e, t) => .ok (.error e, t)
    else if resp.status = 504 then
      .ok (.error (handle_github_ban resp).1, (handle_github_ban resp).2)
    else if resp.status = 404 ∨ resp.status = 422 ∨ resp.status = 409 ∨
        resp.status = 451 then
      .ok (.error (.notRetryable (notRetryableMessage resp)), 0)
    else
      .ok (.error (.api ("HTTP code " ++ toString resp.status ++ " for " ++
            resp.url ++ "; " ++ reprResponse resp)), 0)

/-- `except aiohttp.ClientError as e:` — only transport errors are caught
and converted to a retryable `GithubApiError` value; every other exception
keeps propagating. -/
def catchClientError (url : String)
    (r : Except PyErr (GithubApiResponseOrError × Int)) :
    Except PyErr (GithubApiResponseOrError × Int) :=
  match r with
  | .error (.clientError m) =>
    .ok (.error (.api ("Error happened while performing the request for " ++
          url ++ ": " ++ m)), 0)
  | other => other

/-- One (unretried) call of `make_github_http_request`: the `try:` body
guarded by the `except aiohttp.ClientError` clause. -/
def make_github_http_request (url : String)
    (conn : Except PyErr HttpResponse) (now : Int) :
    Except PyErr (GithubApiResponseOrError × Int) :=
  catchClientError url (requestTryBody conn now)

/-- The `retry_if_result` predicate of the decorator:
`isinstance(res, Exception) and not isinstance(res, NotRetryableGithubApiError)`. -/
def shouldRetry : GithubApiResponseOrError → Bool
  | .error (.api _) => true
  | _ => false

/-- The tenacity retry loop of the decorator on `make_github_http_request`:
`wait_fixed(10)`, `stop_after_attempt(10)`, `retry_if_result(shouldRetry)`,
`retry_error_callback=return_last_value`, `reraise=True`.

`f i` is the outcome of attempt `i` (0-indexed); `fuel` is the number of
further attempts the `stop_after_attempt` ceiling still allows (so the
first attempt of the decorated call runs with `fuel = 9`).  Returns the
final outcome, the number of calls made, and the total `wait_fixed` delay
between attempts.  A RAISED exception is not a result, so `retry_if_result`
does not retry it and `reraise` lets it escape; on ceiling exhaustion
`return_last_value` returns the last result as a value. -/
def retryLoop (f : Nat → Except PyErr GithubApiResponseOrError) :
    Nat → Nat → Except PyErr GithubApiResponseOrError × Nat × Nat
  | i, 0 => (f i, 1, 0)
  | i, fuel + 1 =>
    match f i with
    | .error e => (.error e, 1, 0)
    | .ok v =>
      if shouldRetry v then
        let t := retryLoop f (i + 1) fuel
        (t.1, t.2.1 + 1, t.2.2 + OTHER_ERRORS_SLEEP_TIME)
      else (.ok v, 1, 0)

/-- The decorated `make_github_http_request`: the retry policy applied to
the single-attempt executor.  `conns i` is what the GET of attempt `i`
yields. -/
def make_github_http_request_retried (url : String)
    (conns : Nat → Except PyErr HttpResponse) (now : Int) :
    Except PyErr GithubApiResponseOrError × Nat × Nat :=
  retryLoop (fun i => (make_github_http_request url (conns i) now).map
    (fun p => p.1)) 0 (GITHUB_API_TRIES_LIMIT - 1)

/-! Cursor walker: `RepoObjectsProvider.process_repo`.  The `while` loop
follows `headers.get("next")` links; it is embedded with explicit fuel
(any finite cursor chain is walked in full once the fuel covers its
length).  `server url` is the value produced by the (already retried)
`make_github_http_request` for `url`; the accumulated list records the
successive `dump_data` payloads, in call order. -/

/-- `process_repo` loop: on an error value, stop and return it (pages
already dumped stay dumped); on success, dump the page's data, then follow
the `next` link if present, else terminate normally with `None`. -/
def process_repo (server : String → GithubApiResponseOrError) :
    Nat → String → Option GithubError × List Json
  | 0, _ => (none, [])
  | fuel + 1, url =>
    match server url with
    | .error e => (some e, [])
    | .response data next =>
      match next with
      | none => (none, [data])
      | some u =>
        let t := process_repo server fuel u
        (t.1, data :: t.2)

/-- The url of the `i`-th page of a chain fixture (the page index encoded
in the url's length, so that the fixture server can decode it). -/
def chainUrl (i : Nat) : String :=
  String.mk (List.replicate i 'n')

/-- A linear cursor chain: the page at `chainUrl i` carries `pages[i]` and
links to `chainUrl (i + 1)` unless it is the last page.  Urls outside the
chain answer with an error (never reached when walking from page 0). -/
def chainServer (pages : List Json) : String → GithubApiResponseOrError :=
  fun url =>
    match pages[url.length]? with
    | none => .error (.api "out of chain")
    | some d =>
      .response d (if url.length + 1 < pages.length then
        some (chainUrl (url.length + 1)) else none)

/-- A cursor chain whose pages all link onward and whose
`pages.length`-th request answers with the error `e`: a stream that
fails after serving `pages`. -/
def chainServerErr (pages : List Json) (e : GithubError) :
    String → GithubApiResponseOrError :=
  fun url =>
    match pages[url.length]? with
    | none => .error e
    | some d => .response d (some (chainUrl (url.length + 1)))

/-! Concurrent scheduler: `RepoProcessor.process_repositories` and
`process_repositories_in_batches`. -/

/-- The Python `for i, (owner, name) in enumerate(repositories)` loop of
`process_repositories`, started at index `i`: the coroutine built for each
repository, as the triple (token, owner, name) passed to `process_repo`,
where `token = self.github_tokens[i % len(self.github_tokens)]`. -/
def assignTokens (tokens : List String) :
    Nat → List (String × String) → List (String × String × String)
  | _, [] => []
  | i, (owner, name) :: rest =>
    (tokens[i % tokens.length]!, owner, name) ::
      assignTokens tokens (i + 1) rest

/-- The coroutines `process_repositories` creates, in submission order. -/
def process_repositories (tokens : List String)
    (repositories : List (String × String)) :
    List (String × String × String) :=
  assignTokens tokens 0 repositories

/-- The consecutive slices `repositories[i : i + batch_size]` for
`i in range(0, len(repositories), batch_size)`.  Python's `range` raises
`ValueError` on step 0; the model returns `[]` there and every theorem
assumes a positive batch size. -/
def pyBatches (batch_size : Nat) : List (String × String) →
    List (List (String × String))
  | [] => []
  | r :: rest =>
    if _h : batch_size = 0 then []
    else
      ((r :: rest).take batch_size) ::
        pyBatches batch_size ((r :: rest).drop batch_size)
termination_by rs => rs.length
decreasing_by
  simp only [List.length_drop, List.length_cons]
  omega

/-- `process_repositories_in_batches`: each batch is handed to
`process_repositories` in turn (strictly sequentially — the `for` loop
awaits one batch before slicing the next), so the run's coroutines are the
concatenation of the per-batch submissions. -/
def process_repositories_in_batches (tokens : List String)
    (batch_size : Nat) (repositories : List (String × String)) :
    List (String × String × String) :=
  ((pyBatches batch_size repositories).map
    (fun batch => process_repositories tokens batch)).flatten

/-- What awaiting one task of `asyncio.as_completed` yields: either the
coroutine's returned value (`process_repo` returns `Optional[Exception]`,
so a task's terminal error arrives as a VALUE), or an exception the
coroutine itself raised, which `await` re-raises. -/
inductive TaskOutcome where
  | value (r : Option GithubError)
  | fault (e : PyErr)

/-- The `for repositories_future in asyncio.as_completed(...): await ...`
drain, over the task outcomes in completion order.  Awaiting a task that
completed with a value continues the loop (the code discards the value;
the model collects it to record that the task was awaited); awaiting a
task that raised propagates the exception out of the scheduler. -/
def drainCompleted : List TaskOutcome → Except PyErr (List (Option GithubError))
  | [] => .ok []
  | .value r :: rest => (drainCompleted rest).map (fun l => r :: l)
  | .fault e :: _ => .error e

/-! Item sink: `RepoInfoProvider.dump_data` (textually identical in
`RepoObjectsProvider`). -/

/-- Concatenation of a list of written chunks, in write order. -/
def strConcat : List String → String
  | [] => ""
  | s :: rest => s ++ strConcat rest

/-- The records written by one `dump_data` call:
`json.dumps(item) + "\n"` per item, in order.  `dumps` abstracts
`json.dumps` (its rendering details are irrelevant to every claim). -/
def dumpRecords {α : Type} (dumps : α → String) (items : List α) : String :=
  strConcat (items.map (fun item => dumps item ++ "\n"))

/-- `dump_data(owner, name, items)` as a transformer of the contents of the
output file it opens in mode `"a"`: the new contents are the old contents
with one serialized record per item appended. -/
def dump_data {α : Type} (dumps : α → String) (contents : String)
    (items : List α) : String :=
  contents ++ dumpRecords dumps items

/-- The file name `dump_data` opens inside the data folder:
`f"\x7bowner\x7d__\x7bname\x7d.jsonl"`. -/
def dumpFileName (owner name : String) : String :=
  owner ++ "__" ++ name ++ ".jsonl"

/-! Concrete response fixtures used by witnesses and counterexamples. -/

/-- A secondary-rate-limit 403 body (the prefix the handler tests, plus the
tail GitHub actually sends). -/
def secondaryLimitBody : Json :=
  .obj [("message", .str
    "You have exceeded a secondary rate limit. Please wait a few minutes before you try again.")]

/-- A primary-quota 403 body. -/
def primaryLimitBody : Json :=
  .obj [("message", .str "API rate limit exceeded for user ID 1.")]

/-- A 403 response with a secondary-rate-limit message whose headers omit
`Retry-After`. -/
def resp403NoRetryAfter : HttpResponse :=
  { status := 403, body := secondaryLimitBody, links_next := none,
    headers := [], url := "u" }

/-- A 403 response with a primary-quota message whose headers omit
`X-RateLimit-Reset`. -/
def resp403NoReset : HttpResponse :=
  { status := 403, body := primaryLimitBody, links_next := none,
    headers := [], url := "u" }

/-- A 403 response with a secondary-rate-limit message and
`Retry-After: 7`. -/
def resp403Secondary : HttpResponse :=
  { status := 403, body := secondaryLimitBody, links_next := none,
    headers := [(RETRY_AFTER, "7")], url := "u" }

/-- A 403 response with a primary-quota message and
`X-RateLimit-Reset: 1000`. -/
def resp403Primary : HttpResponse :=
  { status := 403, body := primaryLimitBody, links_next := none,
    headers := [(X_RATELIMIT_RESET, "1000")], url := "u" }

/-- A plain 504 response. -/
def resp504 : HttpResponse :=
  { status := 504, body := .null, links_next := none, headers := [],
    url := "u" }

/-- A plain 404 response. -/
def resp404 : HttpResponse :=
  { status := 404, body := .obj [("message", .str "Not Found")],
    links_next := none, headers := [], url := "u" }

/-- A 200 response carrying a `next` link. -/
def resp200 : HttpResponse :=
  { status := 200, body := .arr [.str "item"], links_next := some "u2",
    headers := [], url := "u" }

/-- Whether an executor outcome is a RETURNED retryable error value
(`GithubApiError`), as opposed to a success, a not-retryable error, or a
raised exception. -/
def isRetryableErrorOutcome :
    Except PyErr (GithubApiResponseOrError × Int) → Bool
  | .ok (.error (.api _), _) => true
  | _ => false

/-! ## Theorems -/

/-- C10: the Item Sink's file-name mapping
`(owner, name) ↦ owner ++ "__" ++ name ++ ".jsonl"` is not injective: the
distinct resources `("a", "b__c")` and `("a__b", "c")` are mapped to the
same file name, so their appends share a single output stream, breaking
per-resource output isolation. -/
theorem claim_C10_output_path_collision :
    dumpFileName "a" "b__c" = dumpFileName "a__b" "c" ∧
    (("a", "b__c") : String × String) ≠ ("a__b", "c") := by
  exact ⟨rfl, by decide⟩

/-- C8: the Item Sink is append-only — after any sequence of `dump_data`
calls the output stream is the prior contents followed by the
concatenation, in call order, of one serialized record per item of each
call; in particular re-running a harvest over existing output appends the
same records a second time rather than deduplicating. -/
theorem claim_C8_sink_append_only (α : Type) (dumps : α → String)
    (contents : String) (calls : List (List α)) (items : List α) :
    calls.foldl (dump_data dumps) contents =
      contents ++ strConcat (calls.map (dumpRecords dumps)) ∧
    dump_data dumps (dump_data dumps contents items) items =
      contents ++ (dumpRecords dumps items ++ dumpRecords dumps items) := by
  constructor
  · induction calls generalizing contents with
    | nil => simp [strConcat, String.append_empty]
    | cons c cs ih =>
      rw [List.foldl_cons, ih, List.map_cons]
      simp only [strConcat, dump_data, String.append_assoc]
  · simp only [dump_data, String.append_assoc]

/-- C7: the scheduler's drain loop awaits every task and returns normally
whenever each task completed with a value — a task's terminal
`GithubError` arrives as that task's own result value, so any number of
per-resource failures neither raises nor aborts the run; the drain can
only raise when some awaited task itself raised an uncaught fault. -/
theorem claim_C7_task_errors_are_values (results : List (Option GithubError)) :
    drainCompleted (results.map .value) = .ok results ∧
    ∀ (outs : List TaskOutcome) (e : PyErr),
      drainCompleted outs = .error e → TaskOutcome.fault e ∈ outs := by
  constructor
  · induction results with
    | nil => rfl
    | cons r rest ih => simp [drainCompleted, ih, Except.map]
  · intro outs
    induction outs with
    | nil => intro e h; simp [drainCompleted] at h
    | cons o rest ih =>
      intro e h
      cases o with
      | value r =>
        cases hrec : drainCompleted rest with
        | ok l => rw [drainCompleted, hrec] at h; simp [Except.map] at h
        | error e2 =>
          rw [drainCompleted, hrec] at h
          simp only [Except.map] at h
          cases h
          exact List.mem_cons_of_mem _ (ih _ hrec)
      | fault f =>
        rw [drainCompleted] at h
        cases h
        exact List.mem_cons_self _ _

/-- C7 witness: a run of two value-completing tasks (one of them a
permanent error) drains normally, and a drain that raised contains a
faulted task. -/
theorem claim_C7_witness :
    drainCompleted ([some (GithubError.api "boom"), none].map .value) =
      .ok [some (.api "boom"), none] ∧
    TaskOutcome.fault .attributeError ∈ [TaskOutcome.fault PyErr.attributeError] :=
  ⟨(claim_C7_task_errors_are_values [some (.api "boom"), none]).1,
   (claim_C7_task_errors_are_values []).2
     [TaskOutcome.fault .attributeError] .attributeError rfl⟩

set_option maxRecDepth 8000 in
/-- C9: a 403 response whose message bears the secondary-rate-limit prefix
but whose headers omit `Retry-After` makes the executor raise an uncaught
`KeyError` (likewise for the primary-quota prefix without
`X-RateLimit-Reset`): the exception escapes the value classification and
the retry loop after a single call, while the `except` clause converts
only transport (`aiohttp.ClientError`) failures into retryable values. -/
theorem claim_C9_keyerror_escapes :
    make_github_http_request "u" (.ok resp403NoRetryAfter) 0 =
      .error (.keyError RETRY_AFTER) ∧
    make_github_http_request_retried "u" (fun _ => .ok resp403NoRetryAfter) 0 =
      (.error (.keyError RETRY_AFTER), 1, 0) ∧
    make_github_http_request "u" (.ok resp403NoReset) 0 =
      .error (.keyError X_RATELIMIT_RESET) ∧
    make_github_http_request_retried "u" (fun _ => .ok resp403NoReset) 0 =
      (.error (.keyError X_RATELIMIT_RESET), 1, 0) ∧
    make_github_http_request "u" (.error (.clientError "conn reset")) 0 =
      .ok (.error (.api
        "Error happened while performing the request for u: conn reset"), 0) := by
  have hsec : pyStartswith
      "You have exceeded a secondary rate limit. Please wait a few minutes before you try again."
      "You have exceeded a secondary rate limit." = true := by decide
  have hpri1 : pyStartswith "API rate limit exceeded for user ID 1."
      "You have exceeded a secondary rate limit." = false := by decide
  have hpri2 : pyStartswith "API rate limit exceeded for user ID 1."
      "API rate limit exceeded" = true := by decide
  refine ⟨?_, ?_, ?_, ?_, ?_⟩ <;>
    simp [make_github_http_request, make_github_http_request_retried, retryLoop,
      requestTryBody, catchClientError, handle_github_rate_limit, headersItem,
      Json.get, List.find?, resp403NoRetryAfter, resp403NoReset,
      secondaryLimitBody, primaryLimitBody, RETRY_AFTER, X_RATELIMIT_RESET,
      GITHUB_API_TRIES_LIMIT, hsec, hpri1, hpri2, Except.map]

/-- Helper: whenever the 403 handler returns (rather than raising), the
error it returns is the retryable `GithubApiError` kind. -/
theorem handle_github_rate_limit_ok_is_api (now : Int) (resp : HttpResponse)
    (e : GithubError) (t : Int)
    (h : handle_github_rate_limit now resp = .ok (e, t)) : ∃ m, e = .api m := by
  unfold handle_github_rate_limit at h
  split at h
  · split at h
    · split at h
      · exact absurd h (by simp)
      · split at h
        · exact absurd h (by simp)
        · exact ⟨_, by injection h with h2; exact (congrArg Prod.fst h2).symm⟩
    · split at h
      · split at h
        · exact absurd h (by simp)
        · split at h
          · exact absurd h (by simp)
          · exact ⟨_, by injection h with h2; exact (congrArg Prod.fst h2).symm⟩
      · exact ⟨_, by injection h with h2; exact (congrArg Prod.fst h2).symm⟩
  · exact absurd h (by simp)
  · exact ⟨_, by injection h with h2; exact (congrArg Prod.fst h2).symm⟩

set_option maxRecDepth 8000 in
/-- C1 counterexample: the claim's 403 clause — "status 403 takes the
rate-limit path and yields a retryable error" for EVERY response — fails
on a 403 response whose secondary-rate-limit message is not accompanied by
a `Retry-After` header: the executor's outcome is a raised `KeyError`, not
a retryable error value. -/
theorem claim_C1_counterexample :
    resp403NoRetryAfter.status = 403 ∧
    isRetryableErrorOutcome
      (make_github_http_request "u" (.ok resp403NoRetryAfter) 0) = false := by
  have hsec : pyStartswith
      "You have exceeded a secondary rate limit. Please wait a few minutes before you try again."
      "You have exceeded a secondary rate limit." = true := by decide
  refine ⟨rfl, ?_⟩
  simp [make_github_http_request, requestTryBody, catchClientError,
    handle_github_rate_limit, headersItem, Json.get, List.find?,
    resp403NoRetryAfter, secondaryLimitBody, RETRY_AFTER, hsec,
    isRetryableErrorOutcome]

/-- C1 (amended): classification of every outcome by the (single-attempt)
Request Executor — 200 yields the success value carrying the payload and
the optional `next` cursor; 403 enters the rate-limit path (inside the
transport-error guard) and, whenever that path returns rather than
raising, yields a retryable error with that path's sleep; 504 sleeps 600
seconds and yields a retryable error; 404/422/409/451 yield a
not-retryable error carrying the server's message; every other status
yields a retryable error, and a transport (`aiohttp.ClientError`) failure
is caught and yields a retryable error. -/
theorem claim_C1_classification (url : String) (resp : HttpResponse)
    (now : Int) :
    (resp.status = 200 →
      make_github_http_request url (.ok resp) now =
        .ok (.response resp.body resp.links_next, 0)) ∧
    (resp.status = 403 →
      make_github_http_request url (.ok resp) now =
        catchClientError url ((handle_github_rate_limit now resp).map
          (fun p => (.error p.1, p.2))) ∧
      ∀ e t, handle_github_rate_limit now resp = .ok (e, t) →
        make_github_http_request url (.ok resp) now = .ok (.error e, t) ∧
          shouldRetry (.error e) = true) ∧
    (resp.status = 504 →
      make_github_http_request url (.ok resp) now =
        .ok (.error (.api ("Github API returned 504 error. " ++ resp.url ++
          " sleep for 600")), 600)) ∧
    (resp.status = 404 ∨ resp.status = 422 ∨ resp.status = 409 ∨
        resp.status = 451 →
      make_github_http_request url (.ok resp) now =
        .ok (.error (.notRetryable (notRetryableMessage resp)), 0) ∧
      shouldRetry (.error (.notRetryable (notRetryableMessage resp))) = false) ∧
    (resp.status ≠ 200 → resp.status ≠ 403 → resp.status ≠ 504 →
     resp.status ≠ 404 → resp.status ≠ 422 → resp.status ≠ 409 →
     resp.status ≠ 451 →
      make_github_http_request url (.ok resp) now =
        .ok (.error (.api ("HTTP code " ++ toString resp.status ++ " for " ++
          resp.url ++ "; " ++ reprResponse resp)), 0)) ∧
    (∀ m, make_github_http_request url (.error (.clientError m)) now =
      .ok (.error (.api ("Error happened while performing the request for " ++
        url ++ ": " ++ m)), 0)) := by
  refine ⟨?_, ?_, ?_, ?_, ?_, ?_⟩
  · intro h
    simp [make_github_http_request, requestTryBody, catchClientError, h]
  · intro h
    constructor
    · cases hh : handle_github_rate_limit now resp with
      | ok p =>
        simp [make_github_http_request, requestTryBody, h, hh, Except.map]
      | error e =>
        simp [make_github_http_request, requestTryBody, h, hh, Except.map]
    · intro e t hh
      obtain ⟨m, rfl⟩ := handle_github_rate_limit_ok_is_api now resp e t hh
      constructor
      · simp [make_github_http_request, requestTryBody, catchClientError, h, hh]
      · rfl
  · intro h
    simp [make_github_http_request, requestTryBody, catchClientError, h,
      handle_github_ban]
  · intro h
    refine ⟨?_, rfl⟩
    rcases h with h | h | h | h <;>
      simp [make_github_http_request, requestTryBody, catchClientError, h]
  · intro h200 h403 h504 h404 h422 h409 h451
    simp [make_github_http_request, requestTryBody, catchClientError,
      h200, h403, h504, h404, h422, h409, h451]
  · intro m
    simp [make_github_http_request, requestTryBody, catchClientError]

/-- C1 witness: the classification applied to a concrete 200 response with
a `next` link and to a concrete 404 response. -/
theorem claim_C1_witness :
    make_github_http_request "u" (.ok resp200) 0 =
      .ok (.response resp200.body resp200.links_next, 0) ∧
    make_github_http_request "u" (.ok resp404) 0 =
      .ok (.error (.notRetryable (notRetryableMessage resp404)), 0) :=
  ⟨(claim_C1_classification "u" resp200 0).1 rfl,
   ((claim_C1_classification "u" resp404 0).2.2.2.1 (Or.inl rfl)).1⟩

/-- C3: on a 403 response the executor, following the handler's message
dispatch — when the message indicates the secondary (burst) limit it
sleeps exactly the parsed value of the `Retry-After` header and returns a
retryable error; when the message indicates the primary quota it sleeps
`(X-RateLimit-Reset value - current time) + 300` seconds and returns a
retryable error; any other 403 message, and a 403 body without a message,
yield a retryable error with no extra sleep. -/
theorem claim_C3_rate_limit_sleeps (url : String) (resp : HttpResponse)
    (now : Int) (message : String) (h403 : resp.status = 403) :
    (resp.body.get "message" = some (.str message) →
     pyStartswith message "You have exceeded a secondary rate limit." = true →
     ∀ hv n, headersItem resp.headers RETRY_AFTER = .ok hv →
       pyInt hv = .ok n →
       make_github_http_request url (.ok resp) now =
         .ok (.error (.api ("Secondary Github API rate limit was exceeded. " ++
           resp.url ++ " sleep for " ++ toString n)), n)) ∧
    (resp.body.get "message" = some (.str message) →
     pyStartswith message "You have exceeded a secondary rate limit." = false →
     pyStartswith message "API rate limit exceeded" = true →
     ∀ hv n, headersItem resp.headers X_RATELIMIT_RESET = .ok hv →
       pyInt hv = .ok n →
       make_github_http_request url (.ok resp) now =
         .ok (.error (.api ("Github API rate limit exceeded. " ++ resp.url ++
           " sleep for " ++ toString (n - now + TIME_DIVERGENCE_CONST))),
           n - now + TIME_DIVERGENCE_CONST)) ∧
    (resp.body.get "message" = some (.str message) →
     pyStartswith message "You have exceeded a secondary rate limit." = false →
     pyStartswith message "API rate limit exceeded" = false →
     make_github_http_request url (.ok resp) now =
       .ok (.error (.api ("Not a rate limiting error. " ++
         reprResponse resp)), 0)) ∧
    (resp.body.get "message" = none →
     make_github_http_request url (.ok resp) now =
       .ok (.error (.api ("No message in response. " ++
         reprResponse resp)), 0)) := by
  refine ⟨?_, ?_, ?_, ?_⟩
  · intro hm hs hv n hh hn
    simp [make_github_http_request, requestTryBody, catchClientError,
      handle_github_rate_limit, h403, hm, hs, hh, hn]
  · intro hm hs1 hs2 hv n hh hn
    simp [make_github_http_request, requestTryBody, catchClientError,
      handle_github_rate_limit, h403, hm, hs1, hs2, hh, hn]
  · intro hm hs1 hs2
    simp [make_github_http_request, requestTryBody, catchClientError,
      handle_github_rate_limit, h403, hm, hs1, hs2]
  · intro hm
    simp [make_github_http_request, requestTryBody, catchClientError,
      handle_github_rate_limit, h403, hm]

set_option maxRecDepth 8000 in
/-- C3 witness: a 403 with the secondary message and `Retry-After: 7`
sleeps 7 seconds; a 403 with the primary message and
`X-RateLimit-Reset: 1000` at time 40 sleeps 1000 - 40 + 300 seconds. -/
theorem claim_C3_witness :
    make_github_http_request "u" (.ok resp403Secondary) 0 =
      .ok (.error (.api ("Secondary Github API rate limit was exceeded. " ++
        resp403Secondary.url ++ " sleep for " ++ toString (7 : Int))), 7) ∧
    make_github_http_request "u" (.ok resp403Primary) 40 =
      .ok (.error (.api ("Github API rate limit exceeded. " ++
        resp403Primary.url ++ " sleep for " ++
        toString ((1000 : Int) - 40 + TIME_DIVERGENCE_CONST))),
        1000 - 40 + TIME_DIVERGENCE_CONST) :=
  ⟨(claim_C3_rate_limit_sleeps "u" resp403Secondary 0 _ rfl).1 rfl
    (by decide) "7" 7 rfl rfl,
   (claim_C3_rate_limit_sleeps "u" resp403Primary 40 _ rfl).2.1 rfl
    (by decide) (by decide) "1000" 1000 rfl rfl⟩

/-- Helper: the retry loop always makes at least one call. -/
theorem retryLoop_calls_pos (f : Nat → Except PyErr GithubApiResponseOrError)
    (i fuel : Nat) : 1 ≤ (retryLoop f i fuel).2.1 := by
  cases fuel with
  | zero => simp [retryLoop]
  | succ n =>
    rw [retryLoop]
    cases hf : f i with
    | error e => simp
    | ok v =>
      by_cases hr : shouldRetry v = true
      · simp [hr]
      · simp [hr]

/-- Helper: the total `wait_fixed` delay is 10 seconds per retry, i.e.
10 * (calls - 1). -/
theorem retryLoop_waited (f : Nat → Except PyErr GithubApiResponseOrError) :
    ∀ (fuel i : Nat), (retryLoop f i fuel).2.2 =
      OTHER_ERRORS_SLEEP_TIME * ((retryLoop f i fuel).2.1 - 1) := by
  intro fuel
  induction fuel with
  | zero => intro i; simp [retryLoop]
  | succ n ih =>
    intro i
    rw [retryLoop]
    cases hf : f i with
    | error e => simp
    | ok v =>
      by_cases hr : shouldRetry v = true
      · have hpos := retryLoop_calls_pos f (i + 1) n
        have hw := ih (i + 1)
        simp only [hr, if_true, OTHER_ERRORS_SLEEP_TIME] at *
        omega
      · simp [hr]

/-- Helper: the retry loop makes at most `fuel + 1` calls. -/
theorem retryLoop_calls_le (f : Nat → Except PyErr GithubApiResponseOrError) :
    ∀ (fuel i : Nat), (retryLoop f i fuel).2.1 ≤ fuel + 1 := by
  intro fuel
  induction fuel with
  | zero => intro i; simp [retryLoop]
  | succ n ih =>
    intro i
    rw [retryLoop]
    cases hf : f i with
    | error e => simp
    | ok v =>
      by_cases hr : shouldRetry v = true
      · have := ih (i + 1)
        simp only [hr, if_true]
        omega
      · simp [hr]

/-- Helper: a non-retryable result (a success, or a
`NotRetryableGithubApiError`) stops the loop at once: one call, no wait. -/
theorem retryLoop_stop_no_retry
    (f : Nat → Except PyErr GithubApiResponseOrError) (i fuel : Nat)
    (v : GithubApiResponseOrError) (hf : f i = .ok v)
    (hv : shouldRetry v = false) : retryLoop f i fuel = (.ok v, 1, 0) := by
  cases fuel with
  | zero => simp [retryLoop, hf]
  | succ n => rw [retryLoop, hf]; simp [hv]

/-- Helper: when every attempt returns a retryable error value, the loop
runs the ceiling out and hands back the last attempt's value. -/
theorem retryLoop_all_retry (f : Nat → Except PyErr GithubApiResponseOrError)
    (m : Nat → String) (h : ∀ j, f j = .ok (.error (.api (m j)))) :
    ∀ (fuel i : Nat), retryLoop f i fuel =
      (.ok (.error (.api (m (i + fuel)))), fuel + 1,
        OTHER_ERRORS_SLEEP_TIME * fuel) := by
  intro fuel
  induction fuel with
  | zero => intro i; simp [retryLoop, h i]
  | succ n ih =>
    intro i
    rw [retryLoop, h i]
    have hr : shouldRetry (.error (.api (m i))) = true := rfl
    simp only [hr, if_true, ih (i + 1)]
    have h1 : i + 1 + n = i + (n + 1) := by omega
    rw [h1]
    simp [OTHER_ERRORS_SLEEP_TIME]
    ring

/-- C2: the retry policy waits a fixed 10 seconds between attempts (total
wait 10 * (calls - 1)), makes at most 10 attempts, stops at once on a
non-retried result — in particular one single call for a 404 response —
and on exhausting the ceiling returns the last (retryable) error outcome
as a value rather than raising. -/
theorem claim_C2_retry_policy :
    (∀ f i fuel, (retryLoop f i fuel).2.2 =
      OTHER_ERRORS_SLEEP_TIME * ((retryLoop f i fuel).2.1 - 1)) ∧
    (∀ url conns now, (make_github_http_request_retried url conns now).2.1 ≤
      GITHUB_API_TRIES_LIMIT) ∧
    (∀ f i fuel v, f i = .ok v → shouldRetry v = false →
      retryLoop f i fuel = (.ok v, 1, 0)) ∧
    (∀ url conns now resp, conns 0 = .ok resp → resp.status = 404 →
      make_github_http_request_retried url conns now =
        (.ok (.error (.notRetryable (notRetryableMessage resp))), 1, 0)) ∧
    (∀ url conns now (m : Nat → String),
      (∀ j, (make_github_http_request url (conns j) now).map
        (fun p => p.1) = .ok (.error (.api (m j)))) →
      make_github_http_request_retried url conns now =
        (.ok (.error (.api (m 9))), GITHUB_API_TRIES_LIMIT,
          OTHER_ERRORS_SLEEP_TIME * 9)) := by
  refine ⟨?_, ?_, ?_, ?_, ?_⟩
  · intro f i fuel; exact retryLoop_waited f fuel i
  · intro url conns now
    have := retryLoop_calls_le
      (fun i => (make_github_http_request url (conns i) now).map
        (fun p => p.1)) (GITHUB_API_TRIES_LIMIT - 1) 0
    simpa [make_github_http_request_retried, GITHUB_API_TRIES_LIMIT] using this
  · intro f i fuel v hf hv; exact retryLoop_stop_no_retry f i fuel v hf hv
  · intro url conns now resp hc h404
    have hattempt :
        (make_github_http_request url (conns 0) now).map (fun p => p.1) =
          .ok (.error (.notRetryable (notRetryableMessage resp))) := by
      rw [hc]
      simp [make_github_http_request, requestTryBody, catchClientError,
        h404, Except.map]
    unfold make_github_http_request_retried
    exact retryLoop_stop_no_retry _ 0 _ _ hattempt rfl
  · intro url conns now m hall
    unfold make_github_http_request_retried
    have := retryLoop_all_retry
      (fun i => (make_github_http_request url (conns i) now).map
        (fun p => p.1)) m hall (GITHUB_API_TRIES_LIMIT - 1) 0
    simpa [GITHUB_API_TRIES_LIMIT] using this

/-- C2 witness: a constantly-404 connection is called exactly once; a
constantly-504 connection exhausts all 10 attempts with 90 seconds of
fixed-delay waiting and the last retryable error is returned as a value. -/
theorem claim_C2_witness :
    make_github_http_request_retried "u" (fun _ => .ok resp404) 0 =
      (.ok (.error (.notRetryable (notRetryableMessage resp404))), 1, 0) ∧
    make_github_http_request_retried "u" (fun _ => .ok resp504) 0 =
      (.ok (.error (.api ("Github API returned 504 error. " ++ resp504.url ++
        " sleep for 600"))), GITHUB_API_TRIES_LIMIT,
        OTHER_ERRORS_SLEEP_TIME * 9) :=
  ⟨claim_C2_retry_policy.2.2.2.1 "u" (fun _ => .ok resp404) 0 resp404 rfl rfl,
   claim_C2_retry_policy.2.2.2.2 "u" (fun _ => .ok resp504) 0
     (fun _ => "Github API returned 504 error. " ++ resp504.url ++
       " sleep for 600") (fun _ => rfl)⟩

/-- Helper: the chain-fixture url of page `i` has length `i`. -/
theorem chainUrl_length (i : Nat) : (chainUrl i).length = i := by
  simp [chainUrl, String.length]

/-- Helper: from page `i` of a linear chain the walker dumps exactly the
remaining pages, in chain order, and terminates normally. -/
theorem process_repo_chain (pages : List Json) :
    ∀ (fuel i : Nat), i < pages.length → pages.length - i ≤ fuel →
      process_repo (chainServer pages) fuel (chainUrl i) =
        (none, pages.drop i) := by
  intro fuel
  induction fuel with
  | zero => intro i hi hle; omega
  | succ n ih =>
    intro i hi hle
    rw [process_repo]
    simp only [chainServer, chainUrl_length]
    rw [List.getElem?_eq_getElem hi]
    by_cases hnext : i + 1 < pages.length
    · simp only [hnext, if_true]
      rw [ih (i + 1) hnext (by omega)]
      rw [List.drop_eq_getElem_cons hi]
    · simp only [hnext, if_false]
      rw [List.drop_eq_getElem_cons hi]
      rw [List.drop_eq_nil_of_le (by omega)]

/-- Helper: on a chain that errors after its last page, the walker dumps
all remaining pages and then returns the error value. -/
theorem process_repo_chain_err (pages : List Json) (e : GithubError) :
    ∀ (fuel i : Nat), i ≤ pages.length → pages.length - i < fuel →
      process_repo (chainServerErr pages e) fuel (chainUrl i) =
        (some e, pages.drop i) := by
  intro fuel
  induction fuel with
  | zero => intro i hi hlt; omega
  | succ n ih =>
    intro i hi hlt
    rw [process_repo]
    simp only [chainServerErr, chainUrl_length]
    by_cases hcase : i < pages.length
    · rw [List.getElem?_eq_getElem hcase]
      dsimp only
      rw [ih (i + 1) (by omega) (by omega)]
      rw [List.drop_eq_getElem_cons hcase]
    · have hlen : i = pages.length := by omega
      rw [List.getElem?_eq_none (by omega)]
      rw [hlen, List.drop_length]

/-- C4: the Cursor Walker dumps each page of a cursor chain exactly once,
in exactly the order the `next` links chain, and terminates normally when
a page has no `next` link; on an error outcome it stops at once and
returns that error, with all previously dumped pages retained. -/
theorem claim_C4_cursor_walker (pages : List Json) (fuel : Nat)
    (e : GithubError) :
    (pages ≠ [] → pages.length ≤ fuel →
      process_repo (chainServer pages) fuel (chainUrl 0) = (none, pages)) ∧
    (pages.length < fuel →
      process_repo (chainServerErr pages e) fuel (chainUrl 0) =
        (some e, pages)) := by
  constructor
  · intro hne hle
    have h0 : 0 < pages.length := List.length_pos.mpr hne
    have := process_repo_chain pages fuel 0 h0 (by omega)
    simpa using this
  · intro hlt
    have := process_repo_chain_err pages e fuel 0 (by omega) (by omega)
    simpa using this

/-- C4 witness: a 3-page chain A→B→C→(none) dumps A, B, C in order, once
each; a chain erroring after 2 pages dumps both pages and surfaces the
error. -/
theorem claim_C4_witness :
    process_repo (chainServer [.str "A", .str "B", .str "C"]) 3
      (chainUrl 0) = (none, [.str "A", .str "B", .str "C"]) ∧
    process_repo (chainServerErr [.str "A", .str "B"] (.api "boom")) 3
      (chainUrl 0) = (some (.api "boom"), [.str "A", .str "B"]) :=
  ⟨(claim_C4_cursor_walker [.str "A", .str "B", .str "C"] 3 (.api "x")).1
    (by simp) (by simp),
   (claim_C4_cursor_walker [.str "A", .str "B"] 3 (.api "boom")).2 (by simp)⟩

/-- Helper: unfolding of the batch slicing on a non-empty work list. -/
theorem pyBatches_cons (B : Nat) (hB : 0 < B) (r : String × String)
    (rest : List (String × String)) :
    pyBatches B (r :: rest) =
      (r :: rest).take B :: pyBatches B ((r :: rest).drop B) := by
  simp only [pyBatches]
  rw [dif_neg (by omega : ¬ B = 0)]

/-- Helper: the slices are a partition — concatenating them restores the
work list in input order. -/
theorem pyBatches_flatten (B : Nat) (hB : 0 < B) :
    ∀ (n : Nat) (rs : List (String × String)), rs.length ≤ n →
      (pyBatches B rs).flatten = rs := by
  intro n
  induction n with
  | zero =>
    intro rs h
    cases rs with
    | nil => simp [pyBatches]
    | cons r rest => simp at h
  | succ n ih =>
    intro rs h
    cases rs with
    | nil => simp [pyBatches]
    | cons r rest =>
      rw [pyBatches_cons B hB, List.flatten_cons]
      rw [ih ((r :: rest).drop B) (by
        simp only [List.length_drop, List.length_cons]
        simp only [List.length_cons] at h
        omega)]
      exact List.take_append_drop B (r :: rest)

/-- Helper: every slice holds at most `B` work items. -/
theorem pyBatches_chunk_le (B : Nat) (hB : 0 < B) :
    ∀ (n : Nat) (rs : List (String × String)), rs.length ≤ n →
      ∀ c ∈ pyBatches B rs, c.length ≤ B := by
  intro n
  induction n with
  | zero =>
    intro rs h c hc
    cases rs with
    | nil => simp [pyBatches] at hc
    | cons r rest => simp at h
  | succ n ih =>
    intro rs h c hc
    cases rs with
    | nil => simp [pyBatches] at hc
    | cons r rest =>
      rw [pyBatches_cons B hB] at hc
      rcases List.mem_cons.mp hc with hc | hc
      · subst hc
        exact List.length_take_le B (r :: rest)
      · exact ih ((r :: rest).drop B) (by
          simp only [List.length_drop, List.length_cons]
          simp only [List.length_cons] at h
          omega) c hc

/-- Helper: `assignTokens` builds one coroutine per work item. -/
theorem assignTokens_length (tokens : List String) :
    ∀ (rs : List (String × String)) (i : Nat),
      (assignTokens tokens i rs).length = rs.length := by
  intro rs
  induction rs with
  | nil => intro i; simp [assignTokens]
  | cons head rest ih =>
    intro i
    cases head with
    | mk o nm => simp [assignTokens, ih]

/-- Helper: the `j`-th coroutine built by the enumerate loop started at
index `i` receives token `(i + j) mod len(tokens)` and its own work
item. -/
theorem assignTokens_getElem? (tokens : List String) :
    ∀ (rs : List (String × String)) (i j : Nat), j < rs.length →
      (assignTokens tokens i rs)[j]? =
        some (tokens[(i + j) % tokens.length]!, (rs[j]!).1, (rs[j]!).2) := by
  intro rs
  induction rs with
  | nil => intro i j hj; simp at hj
  | cons head rest ih =>
    intro i j hj
    cases head with
    | mk o nm =>
      cases j with
      | zero => simp [assignTokens]
      | succ j =>
        simp only [assignTokens, List.getElem?_cons_succ,
          List.getElem!_cons_succ]
        rw [ih (i + 1) j (by simpa using hj)]
        have h1 : i + 1 + j = i + (j + 1) := by omega
        rw [h1]

/-- Helper: the credential actually handed to the `i`-th work item when a
batch size `B` is used is `tokens[(i mod B) mod len(tokens)]` — each batch
restarts the enumerate counter at 0. -/
theorem process_repositories_in_batches_getElem? (tokens : List String)
    (B : Nat) (hB : 0 < B) :
    ∀ (n : Nat) (rs : List (String × String)), rs.length ≤ n →
      ∀ i, i < rs.length →
        (process_repositories_in_batches tokens B rs)[i]? =
          some (tokens[(i % B) % tokens.length]!, (rs[i]!).1, (rs[i]!).2) := by
  intro n
  induction n with
  | zero => intro rs h i hi; omega
  | succ n ih
  =>
    intro rs h i hi
    cases rs with
    | nil => simp at hi
    | cons r rest =>
      have hicons : i < rest.length + 1 := by
        simpa using hi
      have hcons : rest.length + 1 ≤ n + 1 := by
        simpa using h
      have hsplit : process_repositories_in_batches tokens B (r :: rest) =
          process_repositories tokens ((r :: rest).take B) ++
            process_repositories_in_batches tokens B ((r :: rest).drop B) := by
        unfold process_repositories_in_batches
        rw [pyBatches_cons B hB, List.map_cons, List.flatten_cons]
      rw [hsplit]
      have hlen1 : (process_repositories tokens ((r :: rest).take B)).length =
          ((r :: rest).take B).length := by
        unfold process_repositories; exact assignTokens_length tokens _ 0
      by_cases hiB : i < B
      · have hileft : i < (process_repositories tokens
            ((r :: rest).take B)).length := by
          rw [hlen1]
          simp only [List.length_take, List.length_cons]
          omega
        rw [List.getElem?_append_left hileft]
        unfold process_repositories
        rw [assignTokens_getElem? tokens _ 0 i (by
          simp only [List.length_take, List.length_cons]
          omega)]
        have htake : ((r :: rest).take B)[i]! = (r :: rest)[i]! := by
          rw [getElem!_pos ((r :: rest).take B) i (by
              simp only [List.length_take, List.length_cons]; omega),
            getElem!_pos (r :: rest) i hi]
          exact List.getElem_take _
        rw [htake, Nat.zero_add, Nat.mod_eq_of_lt hiB]
      · have hright : (process_repositories tokens
            ((r :: rest).take B)).length ≤ i := by
          rw [hlen1]
          simp only [List.length_take, List.length_cons]
          omega
        rw [List.getElem?_append_right hright]
        rw [hlen1]
        have hminB : ((r :: rest).take B).length = B := by
          simp only [List.length_take, List.length_cons]
          omega
        rw [hminB]
        have hdroplen : ((r :: rest).drop B).length ≤ n := by
          simp only [List.length_drop, List.length_cons]
          omega
        rw [ih ((r :: rest).drop B) hdroplen (i - B) (by
          simp only [List.length_drop, List.length_cons]
          omega)]
        have hdrop : ((r :: rest).drop B)[i - B]! = (r :: rest)[i]! := by
          rw [getElem!_pos ((r :: rest).drop B) (i - B) (by
              simp only [List.length_drop, List.length_cons]; omega),
            getElem!_pos (r :: rest) i hi]
          rw [List.getElem_drop]
          congr 1
          omega
        rw [hdrop, ← Nat.mod_eq_sub_mod (by omega)]

/-- C6: with batch size `B` the work list is partitioned into consecutive
slices of at most `B` items preserving input order (their concatenation is
the original list), and 5 resources with `B = 2` form exactly the three
sequential phases `{0,1}`, `{2,3}`, `{4}`. -/
theorem claim_C6_batching (B : Nat) (rs : List (String × String))
    (hB : 0 < B) :
    (pyBatches B rs).flatten = rs ∧
    (∀ c ∈ pyBatches B rs, c.length ≤ B) ∧
    pyBatches 2 [("o0", "n0"), ("o1", "n1"), ("o2", "n2"), ("o3", "n3"),
        ("o4", "n4")] =
      [[("o0", "n0"), ("o1", "n1")], [("o2", "n2"), ("o3", "n3")],
        [("o4", "n4")]] := by
  refine ⟨pyBatches_flatten B hB rs.length rs le_rfl,
    pyBatches_chunk_le B hB rs.length rs le_rfl, ?_⟩
  simp [pyBatches]

/-- C6 witness: the batching facts at `B = 2` on the concrete 5-resource
list. -/
theorem claim_C6_witness :
    (pyBatches 2 [("o0", "n0"), ("o1", "n1"), ("o2", "n2"), ("o3", "n3"),
      ("o4", "n4")]).flatten =
      [("o0", "n0"), ("o1", "n1"), ("o2", "n2"), ("o3", "n3"), ("o4", "n4")] :=
  (claim_C6_batching 2 [("o0", "n0"), ("o1", "n1"), ("o2", "n2"),
    ("o3", "n3"), ("o4", "n4")] (by norm_num)).1

/-- C5 counterexample: with credentials `[t0, t1]` and batch size 1, the
work item at global index 1 is handed credential `t0` — each batch's
enumerate loop restarts at 0 — whereas the claim demands
`credentials[1 mod 2] = t1`. -/
theorem claim_C5_counterexample :
    (process_repositories_in_batches ["t0", "t1"] 1
      [("o0", "n0"), ("o1", "n1")])[1]? = some ("t0", "o1", "n1") ∧
    ("t0" : String) ≠ ["t0", "t1"][1 % 2]! := by
  constructor
  · simp [process_repositories_in_batches, pyBatches, process_repositories,
      assignTokens]
  · simp only [List.getElem!_cons_succ, List.getElem!_cons_zero]
    decide

/-- C5 (amended): without batching the `i`-th work item (0-indexed, input
order) is handed `credentials[i mod k]`, independent of finish order (the
assignment happens at submission); with a batch size `B` it is handed
`credentials[(i mod B) mod k]`, because each batch restarts the
round-robin at its own first element. -/
theorem claim_C5_round_robin (tokens : List String)
    (rs : List (String × String)) (B i : Nat) (_hk : tokens ≠ [])
    (hB : 0 < B) (hi : i < rs.length) :
    (process_repositories tokens rs)[i]? =
      some (tokens[i % tokens.length]!, (rs[i]!).1, (rs[i]!).2) ∧
    (process_repositories_in_batches tokens B rs)[i]? =
      some (tokens[(i % B) % tokens.length]!, (rs[i]!).1, (rs[i]!).2) := by
  constructor
  · have := assignTokens_getElem? tokens rs 0 i hi
    simpa [process_repositories] using this
  · exact process_repositories_in_batches_getElem? tokens B hB rs.length rs
      le_rfl i hi

/-- C5 witness: three work items, two credentials — unbatched, item 2 gets
`t0`; with batch size 2, item 2 (sole element of the second batch) also
gets `t0`. -/
theorem claim_C5_witness :
    (process_repositories ["t0", "t1"]
      [("o0", "n0"), ("o1", "n1"), ("o2", "n2")])[2]? =
      some (["t0", "t1"][2 % 2]!, "o2", "n2") ∧
    (process_repositories_in_batches ["t0", "t1"] 2
      [("o0", "n0"), ("o1", "n1"), ("o2", "n2")])[2]? =
      some (["t0", "t1"][(2 % 2) % 2]!, "o2", "n2") :=
  ⟨(claim_C5_round_robin ["t0", "t1"]
      [("o0", "n0"), ("o1", "n1"), ("o2", "n2")] 2 2 (by simp) (by norm_num)
      (by norm_num)).1,
   (claim_C5_round_robin ["t0", "t1"]
      [("o0", "n0"), ("o1", "n1"), ("o2", "n2")] 2 2 (by simp) (by norm_num)
      (by norm_num)).2⟩

end LCA
